import Mathlib

/-!
Earth at night: the luminance elevation layer.

A shallow embedding of `src/earth-at-night/script.js`:

* `createEarthAtNightWebTileLayer` and the two `splice` calls that truncate the
  level-of-detail list of the Black Marble tile layer;
* `EarthAtNight3DLayerClass` with its `load` and `fetchTile` methods.

Conventions of the embedding.

* A JavaScript array is a `List`.
* A settled promise is an `Except TileError _`: `.ok v` is a promise resolved with `v`,
  `.error e` a promise rejected with `e`. A synchronous `throw` is an `.error` too.
* JavaScript numbers are kept abstract (a type `α` with the operations the code uses) in the
  definitions; theorems about orders and about the luminance formula take `α := ℝ`.
* Third-party code that the script calls (`WebTileLayer.fetchTile`, `chroma(..).luminance()`)
  is a parameter of the definitions of the script. The section on the third-party parts
  states them as the specification describes them; the luminance is over `ℝ`, without the
  rounding of floating-point numbers.
-/

namespace EarthAtNight

/-! ## Data model -/

/-- One level-of-detail descriptor of `tileInfo.lods`. -/
structure LOD where
  level : Nat
  resolution : ℚ
  scale : ℚ
deriving DecidableEq, Repr

/-- The tiling scheme of a layer (`tileInfo`); only `lods` is touched by the script. -/
structure TileInfo where
  lods : List LOD
deriving DecidableEq, Repr

/-- The `WebTileLayer` instance built by `createEarthAtNightWebTileLayer`. -/
structure WebTileLayer where
  urlTemplate : String
  tileInfo : TileInfo
deriving DecidableEq, Repr

/-- The image element a tile fetch resolves to. `data` is what
`ctx.getImageData(0, 0, width, height).data` returns once the image is drawn on the canvas:
the RGBA components, four per pixel, row-major. -/
structure ImageElement where
  width : Nat
  height : Nat
  data : List Nat
deriving DecidableEq, Repr

/-- The object `fetchTile` resolves to (`ElevationTileData`). -/
structure ElevationTileData (α : Type) where
  values : List α
  width : Nat
  height : Nat
  noDataValue : α

/-- The ways a fetch can fail. `typeError` is the JavaScript `TypeError` raised by a property
access on `undefined`. -/
inductive TileError where
  | tileUnavailable
  | networkFetch
  | typeError
deriving DecidableEq, Repr

/-! ## `Array.prototype.splice` -/

/-- The array left by `xs.splice(start, deleteCount)` (no inserted items): `deleteCount`
elements are removed from position `start`. Both arguments clamp at the array length. -/
def splice {β : Type} (xs : List β) (start deleteCount : Nat) : List β :=
  xs.take start ++ xs.drop (start + deleteCount)

/-- The array left by `xs.splice(start)`: everything from position `start` on is removed. -/
def spliceFrom {β : Type} (xs : List β) (start : Nat) : List β :=
  xs.take start

/-! ## `createEarthAtNightWebTileLayer` -/

/-- The URL template of the Black Marble tiles. -/
def blackMarbleUrlTemplate : String :=
  "https://gibs.earthdata.nasa.gov/wmts/epsg3857/best/VIIRS_Black_Marble/default/2016-01-01/GoogleMapsCompatible_Level8/\x7blevel\x7d/\x7brow\x7d/\x7bcol\x7d.png"

/-- The two statements
`tileInfo.lods.splice(0, 1); tileInfo.lods.splice(8);` applied to a level list. -/
def truncateLods (lods : List LOD) : List LOD :=
  spliceFrom (splice lods 0 1) 8

/-- The function `createEarthAtNightWebTileLayer`. `advertised` is the `tileInfo` that the
freshly constructed `WebTileLayer` carries before the script truncates its `lods`. -/
def createEarthAtNightWebTileLayer (advertised : TileInfo) : WebTileLayer :=
  let earthAtNightWebTileLayer : WebTileLayer :=
    { urlTemplate := blackMarbleUrlTemplate, tileInfo := advertised }
  { earthAtNightWebTileLayer with
    tileInfo := { lods := truncateLods earthAtNightWebTileLayer.tileInfo.lods } }

/-! ## `EarthAtNight3DLayerClass` -/

/-- The state of an instance of the elevation layer class: the custom property
`exaggerationFactor`, the private `_earthAtNightLayer` (`none` is `undefined`: `load` has not
run) and the layer's own `tileInfo` (`none` until the script assigns it). -/
structure EarthAtNight3DLayerClass (α : Type) where
  exaggerationFactor : α
  _earthAtNightLayer : Option WebTileLayer
  tileInfo : Option TileInfo

/-- The call `new EarthAtNight3DLayerClass({ exaggerationFactor: factor })`: the property is
set and nothing else is. -/
def EarthAtNight3DLayerClass.createWith {α : Type} (factor : α) : EarthAtNight3DLayerClass α :=
  { exaggerationFactor := factor, _earthAtNightLayer := none, tileInfo := none }

/-- The call `new EarthAtNight3DLayerClass()`: the declared default of `exaggerationFactor` is
85000. -/
def EarthAtNight3DLayerClass.create (α : Type) [NatCast α] : EarthAtNight3DLayerClass α :=
  EarthAtNight3DLayerClass.createWith ((85000 : Nat) : α)

/-- The synchronous part of `load`: the internal tile layer is created and stored. (Its own
`load()` is started and the resulting promise is registered as a resolving promise.) -/
def EarthAtNight3DLayerClass.load {α : Type} (advertised : TileInfo)
    (self : EarthAtNight3DLayerClass α) : EarthAtNight3DLayerClass α :=
  { self with _earthAtNightLayer := some (createEarthAtNightWebTileLayer advertised) }

/-- The `.then` callback of `load`, run when the internal layer's `load()` has resolved:
`this.tileInfo = this._earthAtNightLayer.tileInfo`. -/
def EarthAtNight3DLayerClass.loadResolved {α : Type}
    (self : EarthAtNight3DLayerClass α) : EarthAtNight3DLayerClass α :=
  match self._earthAtNightLayer with
  | some layer => { self with tileInfo := some layer.tileInfo }
  | none => self

/-- The three phases of the life of the layer, read off its state. -/
inductive LoadPhase where
  | unloaded
  | loading
  | loaded
deriving DecidableEq, Repr

/-- The phase of a layer: `unloaded` before `load`, `loading` between `load` and the
adoption of the internal layer's `tileInfo`, `loaded` afterwards. -/
def EarthAtNight3DLayerClass.phase {α : Type} (self : EarthAtNight3DLayerClass α) : LoadPhase :=
  match self._earthAtNightLayer, self.tileInfo with
  | none, _ => .unloaded
  | some _, none => .loading
  | some _, some _ => .loaded

/-- The pixel loop of `fetchTile`:
`for (var index = 0; index < imageData.length; index += 4) { ... elevations.push(elevation); }`.
A read `imageData[k]` is `imageData[k]?`: `none` is the `undefined` of a read past the end.
`luminance r g b` stands for `new chroma([r, g, b]).luminance()`. -/
def pixelLoop {α : Type} [Mul α] (luminance : Option Nat → Option Nat → Option Nat → α)
    (exaggerationFactor : α) (imageData : List Nat) (index : Nat) (elevations : List α) :
    List α :=
  if index < imageData.length then
    let r := imageData[index]?
    let g := imageData[index + 1]?
    let b := imageData[index + 2]?
    let elevation := luminance r g b * exaggerationFactor
    pixelLoop luminance exaggerationFactor imageData (index + 4) (elevations ++ [elevation])
  else
    elevations
termination_by imageData.length - index
decreasing_by omega

/-- The method `fetchTile`. `fetch layer level row col` is the settled result of
`layer.fetchTile(level, row, col)` on the internal `WebTileLayer`, `luminance` is the chroma
luminance. Calling a method of the `undefined` internal layer raises a `TypeError`; a rejected
tile fetch is passed on by `.then`; a resolved one is turned into the elevation grid. -/
def EarthAtNight3DLayerClass.fetchTile {α : Type} [Mul α] [Neg α] [One α]
    (luminance : Option Nat → Option Nat → Option Nat → α)
    (fetch : WebTileLayer → Nat → Nat → Nat → Except TileError ImageElement)
    (self : EarthAtNight3DLayerClass α) (level row col : Nat) :
    Except TileError (ElevationTileData α) :=
  match self._earthAtNightLayer with
  | none => .error .typeError
  | some layer =>
    match fetch layer level row col with
    | .error e => .error e
    | .ok imageElement =>
      let width := imageElement.width
      let height := imageElement.height
      let imageData := imageElement.data
      let elevations := pixelLoop luminance self.exaggerationFactor imageData 0 []
      .ok { values := elevations, width := width, height := height, noDataValue := -1 }

/-! ## The third-party parts, from the specification -/

/-- Modelled from the spec: `fetchTile` of the tile image source (the `WebTileLayer` method of
the mapping library, absent from the sources). It fails with `TileUnavailableError` if the
level is outside the truncated range or the network request errors, and otherwise resolves
to the decoded image. `network level row col` is the outcome of the request, `none` when it
errors. -/
def WebTileLayer.fetchTile (network : Nat → Nat → Nat → Option ImageElement)
    (layer : WebTileLayer) (level row col : Nat) : Except TileError ImageElement :=
  if layer.tileInfo.lods.any (fun lod => lod.level == level) then
    match network level row col with
    | some imageElement => .ok imageElement
    | none => .error .tileUnavailable
  else
    .error .tileUnavailable

/-- Modelled from the spec: the linearisation of one colour channel in the relative-luminance
formula (the channel is scaled to `[0, 1]`, then the sRGB transfer curve is undone). The
exponent 2.4 is a real power, so the function is stated over `ℝ`. -/
noncomputable def luminance_x (x : ℝ) : ℝ :=
  if x / 255 ≤ 0.03928 then x / 255 / 12.92 else ((x / 255 + 0.055) / 1.055) ^ (2.4 : ℝ)

/-- Modelled from the spec: the relative luminance of an RGB triple (the `luminance()` of the
chroma library, absent from the sources): the linearised channels weighted 0.2126, 0.7152
and 0.0722. -/
noncomputable def rgb2luminance (r g b : ℝ) : ℝ :=
  0.2126 * luminance_x r + 0.7152 * luminance_x g + 0.0722 * luminance_x b

/-- Modelled from the spec: the chroma luminance as `fetchTile` calls it, on the components
read from the buffer. A channel is `undefined` only on a read past the end of a buffer whose
length is not a multiple of 4, which a canvas never returns; the value 0 there is a
placeholder that no theorem relies on. -/
noncomputable def chromaLuminance : Option Nat → Option Nat → Option Nat → ℝ
  | some r, some g, some b => rgb2luminance r g b
  | _, _, _ => 0

/-! ## Test data -/

/-- The 2×2 tile with pixels (0,0,0), (255,255,255), (128,128,128), (64,64,64), all opaque. -/
def tile2x2 : ImageElement :=
  { width := 2, height := 2,
    data := [0, 0, 0, 255, 255, 255, 255, 255, 128, 128, 128, 255, 64, 64, 64, 255] }

/-- A black 256×256 tile. -/
def tile256 : ImageElement :=
  { width := 256, height := 256, data := List.replicate (4 * 256 * 256) 0 }

/-- A pyramid of ten levels 0..9, each level halving the resolution of the one before. -/
def pyramid10 : List LOD :=
  (List.range 10).map
    (fun i => { level := i, resolution := 156543 / 2 ^ i, scale := 591657528 / 2 ^ i })

/-- A network that answers every request with the 2×2 tile. -/
def tile2x2Network : Nat → Nat → Nat → Option ImageElement :=
  fun _ _ _ => some tile2x2

/-- A layer with exaggeration factor 1000 on which `load` has run over the ten-level pyramid,
before the tiling scheme is adopted. -/
noncomputable def loadingLayer : EarthAtNight3DLayerClass ℝ :=
  (EarthAtNight3DLayerClass.createWith (1000 : ℝ)).load { lods := pyramid10 }

/-- The same layer once the tiling scheme is adopted. -/
noncomputable def loadedLayer : EarthAtNight3DLayerClass ℝ :=
  loadingLayer.loadResolved

/-! ## The pixel loop in closed form -/

/-- The elevation sample of the pixel that starts at position `k` of the buffer. -/
def sampleAt {α : Type} [Mul α] (luminance : Option Nat → Option Nat → Option Nat → α)
    (exaggerationFactor : α) (imageData : List Nat) (k : Nat) : α :=
  luminance imageData[k]? imageData[k + 1]? imageData[k + 2]? * exaggerationFactor

theorem pixelLoop_eq {α : Type} [Mul α] (luminance : Option Nat → Option Nat → Option Nat → α)
    (f : α) (imageData : List Nat) (index : Nat) (elevations : List α) :
    pixelLoop luminance f imageData index elevations =
      elevations ++ (List.range ((imageData.length - index + 3) / 4)).map
        (fun j => sampleAt luminance f imageData (index + 4 * j)) := by
  induction index, elevations using pixelLoop.induct luminance f imageData with
  | case1 index elevations h r g b elevation ih =>
    rw [pixelLoop, if_pos h, ih]
    have hk : (imageData.length - index + 3) / 4 = (imageData.length - (index + 4) + 3) / 4 + 1 := by
      omega
    rw [hk, List.range_succ_eq_map, List.map_cons, List.map_map, List.append_assoc]
    congr 1
    simp only [List.singleton_append, List.cons.injEq]
    refine ⟨rfl, ?_⟩
    apply List.map_congr_left
    intro j _
    simp only [Function.comp_apply]
    congr 1
    omega
  | case2 index elevations h =>
    rw [pixelLoop, if_neg h]
    have hk : (imageData.length - index + 3) / 4 = 0 := by omega
    simp [hk]

theorem pixelLoop_whole {α : Type} [Mul α] (luminance : Option Nat → Option Nat → Option Nat → α)
    (f : α) (imageData : List Nat) (n : Nat) (hsize : imageData.length = 4 * n) :
    pixelLoop luminance f imageData 0 [] =
      (List.range n).map (fun j => sampleAt luminance f imageData (4 * j)) := by
  rw [pixelLoop_eq]
  have hk : (imageData.length - 0 + 3) / 4 = n := by omega
  rw [hk]
  simp

theorem fetchTile_ok {α : Type} [Mul α] [Neg α] [One α]
    (luminance : Option Nat → Option Nat → Option Nat → α)
    (fetch : WebTileLayer → Nat → Nat → Nat → Except TileError ImageElement)
    (self : EarthAtNight3DLayerClass α) (layer : WebTileLayer) (level row col : Nat)
    (imageElement : ImageElement)
    (hlayer : self._earthAtNightLayer = some layer)
    (hfetch : fetch layer level row col = .ok imageElement) :
    self.fetchTile luminance fetch level row col =
      .ok { values := pixelLoop luminance self.exaggerationFactor imageElement.data 0 [],
            width := imageElement.width, height := imageElement.height, noDataValue := -1 } := by
  simp [EarthAtNight3DLayerClass.fetchTile, hlayer, hfetch]

/-- C1: on a successfully fetched tile whose decoded buffer holds 4 components per pixel, the
i-th value is the luminance of the components 4i, 4i+1, 4i+2 times the exaggeration factor,
in pixel order, and a buffer that differs only in the opacity components (positions 4i+3)
gives the same values. -/
theorem fetchTile_values_pixelwise {α : Type} [Mul α] [Neg α] [One α]
    (luminance : Option Nat → Option Nat → Option Nat → α)
    (fetch : WebTileLayer → Nat → Nat → Nat → Except TileError ImageElement)
    (self : EarthAtNight3DLayerClass α) (layer : WebTileLayer) (level row col : Nat)
    (imageElement : ImageElement)
    (hlayer : self._earthAtNightLayer = some layer)
    (hfetch : fetch layer level row col = .ok imageElement)
    (hsize : imageElement.data.length = 4 * (imageElement.width * imageElement.height)) :
    ∃ grid, self.fetchTile luminance fetch level row col = .ok grid ∧
      grid.values.length = imageElement.width * imageElement.height ∧
      (∀ i, i < imageElement.width * imageElement.height →
        ∃ r g b, imageElement.data[4 * i]? = some r ∧ imageElement.data[4 * i + 1]? = some g ∧
          imageElement.data[4 * i + 2]? = some b ∧
          grid.values[i]? =
            some (luminance (some r) (some g) (some b) * self.exaggerationFactor)) ∧
      (∀ (fetch2 : WebTileLayer → Nat → Nat → Nat → Except TileError ImageElement)
          (imageElement2 : ImageElement),
        fetch2 layer level row col = .ok imageElement2 →
        imageElement2.data.length = imageElement.data.length →
        (∀ k, k % 4 ≠ 3 → imageElement2.data[k]? = imageElement.data[k]?) →
        ∃ grid2, self.fetchTile luminance fetch2 level row col = .ok grid2 ∧
          grid2.values = grid.values) := by
  refine ⟨_, fetchTile_ok luminance fetch self layer level row col imageElement hlayer hfetch,
    ?_, ?_, ?_⟩
  · simp [pixelLoop_whole luminance _ _ _ hsize]
  · intro i hi
    have h0 : 4 * i < imageElement.data.length := by omega
    have h1 : 4 * i + 1 < imageElement.data.length := by omega
    have h2 : 4 * i + 2 < imageElement.data.length := by omega
    refine ⟨imageElement.data[4 * i], imageElement.data[4 * i + 1], imageElement.data[4 * i + 2],
      List.getElem?_eq_getElem h0, List.getElem?_eq_getElem h1, List.getElem?_eq_getElem h2, ?_⟩
    simp only [pixelLoop_whole luminance _ _ _ hsize]
    rw [List.getElem?_map, List.getElem?_range hi]
    simp [sampleAt, List.getElem?_eq_getElem h0, List.getElem?_eq_getElem h1,
      List.getElem?_eq_getElem h2]
  · intro fetch2 imageElement2 hfetch2 hlen hsame
    refine ⟨_, fetchTile_ok luminance fetch2 self layer level row col imageElement2 hlayer
      hfetch2, ?_⟩
    simp only [pixelLoop_eq, hlen, List.nil_append]
    apply List.map_congr_left
    intro j _
    simp only [sampleAt]
    rw [hsame (0 + 4 * j) (by omega), hsame (0 + 4 * j + 1) (by omega),
      hsame (0 + 4 * j + 2) (by omega)]

/-- C2: on a successfully fetched tile of w × h pixels, decoded to 4·w·h components, the grid
has width w, height h and w·h values. -/
theorem fetchTile_dimensions {α : Type} [Mul α] [Neg α] [One α]
    (luminance : Option Nat → Option Nat → Option Nat → α)
    (fetch : WebTileLayer → Nat → Nat → Nat → Except TileError ImageElement)
    (self : EarthAtNight3DLayerClass α) (layer : WebTileLayer) (level row col : Nat)
    (imageElement : ImageElement) (w h : Nat)
    (hlayer : self._earthAtNightLayer = some layer)
    (hfetch : fetch layer level row col = .ok imageElement)
    (hw : imageElement.width = w) (hh : imageElement.height = h)
    (hsize : imageElement.data.length = 4 * w * h) :
    ∃ grid, self.fetchTile luminance fetch level row col = .ok grid ∧
      grid.width = w ∧ grid.height = h ∧ grid.values.length = grid.width * grid.height := by
  refine ⟨_, fetchTile_ok luminance fetch self layer level row col imageElement hlayer hfetch,
    hw, hh, ?_⟩
  have hsize2 : imageElement.data.length = 4 * (w * h) := by rw [hsize, Nat.mul_assoc]
  simp [pixelLoop_whole luminance _ _ _ hsize2, hw, hh]

/-! ## The truncation of the level list -/

theorem truncateLods_eq (lods : List LOD) : truncateLods lods = (lods.drop 1).take 8 := by
  simp [truncateLods, spliceFrom, splice]

theorem truncateLods_levels (lods : List LOD) (n : Nat)
    (hlevels : lods.map LOD.level = List.range n) (lod : LOD) (hmem : lod ∈ truncateLods lods) :
    1 ≤ lod.level ∧ lod.level ≤ 8 := by
  rw [truncateLods_eq] at hmem
  obtain ⟨i, hi, rfl⟩ := List.getElem_of_mem hmem
  have hlen : i < 8 ∧ i + 1 < lods.length := by
    simp only [List.length_take, List.length_drop] at hi
    omega
  have hget : ((lods.drop 1).take 8)[i] = lods[i + 1] := by
    simp [List.getElem_take, List.getElem_drop, Nat.add_comm]
  have hlev : (lods.map LOD.level)[i + 1]? = (List.range n)[i + 1]? := by rw [hlevels]
  have hn : i + 1 < n := by
    have := congrArg List.length hlevels
    simp at this
    omega
  rw [List.getElem?_map, List.getElem?_eq_getElem hlen.2, List.getElem?_range hn] at hlev
  simp only [Option.map_some', Option.some.injEq] at hlev
  rw [hget, hlev]
  omega

/-- C6: on a pyramid of ten levels 0..9 the truncation keeps the descriptors of levels 1..8,
in order and unchanged, and the length drops by two. -/
theorem truncation_ten_levels (lods : List LOD)
    (hlevels : lods.map LOD.level = List.range 10) :
    (createEarthAtNightWebTileLayer { lods := lods }).tileInfo.lods = (lods.drop 1).take 8 ∧
      (∀ i, i < 8 →
        (createEarthAtNightWebTileLayer { lods := lods }).tileInfo.lods[i]? = lods[i + 1]?) ∧
      (createEarthAtNightWebTileLayer { lods := lods }).tileInfo.lods.map LOD.level =
        [1, 2, 3, 4, 5, 6, 7, 8] ∧
      (createEarthAtNightWebTileLayer { lods := lods }).tileInfo.lods.length =
        lods.length - 2 := by
  have hlen : lods.length = 10 := by
    have := congrArg List.length hlevels
    simpa using this
  have hcreate : (createEarthAtNightWebTileLayer { lods := lods }).tileInfo.lods =
      (lods.drop 1).take 8 := by
    simp [createEarthAtNightWebTileLayer, truncateLods_eq]
  refine ⟨hcreate, ?_, ?_, ?_⟩
  · intro i hi
    rw [hcreate, List.getElem?_take_of_lt hi, List.getElem?_drop, Nat.add_comm]
  · rw [hcreate, List.map_take, List.map_drop, hlevels]
    decide
  · rw [hcreate, List.length_take, List.length_drop, hlen]
    decide

/-- C10: the level sequence that the service advertises holds level 0 and the levels from
9 up, so it has at least two levels; for every such sequence the truncated sequence is a
consecutive run of the original (the original is a prefix, then the truncated sequence, then
a suffix), its descriptor at position i is the unchanged descriptor at position i + 1 of the
original, and it is not empty. -/
theorem truncation_contiguous_nonempty (lods : List LOD) (hlen : 2 ≤ lods.length) :
    (∃ pre post,
      lods = pre ++ (createEarthAtNightWebTileLayer { lods := lods }).tileInfo.lods ++ post) ∧
      (∀ i, i < (createEarthAtNightWebTileLayer { lods := lods }).tileInfo.lods.length →
        (createEarthAtNightWebTileLayer { lods := lods }).tileInfo.lods[i]? = lods[i + 1]?) ∧
      (createEarthAtNightWebTileLayer { lods := lods }).tileInfo.lods ≠ [] := by
  have hcreate : (createEarthAtNightWebTileLayer { lods := lods }).tileInfo.lods =
      (lods.drop 1).take 8 := by
    simp [createEarthAtNightWebTileLayer, truncateLods_eq]
  rw [hcreate]
  refine ⟨?_, ?_, ?_⟩
  · refine ⟨lods.take 1, (lods.drop 1).drop 8, ?_⟩
    rw [List.append_assoc, List.take_append_drop, List.take_append_drop]
  · intro i hi
    have hi8 : i < 8 := by
      simp only [List.length_take, List.length_drop] at hi
      omega
    rw [List.getElem?_take_of_lt hi8, List.getElem?_drop, Nat.add_comm]
  · intro h
    have := congrArg List.length h
    simp only [List.length_take, List.length_drop, List.length_nil] at this
    omega

/-! ## Failures of `fetchTile` -/

/-- C7: once `load` has created the internal layer from a pyramid whose levels are numbered
0, 1, 2, ..., a fetch at level 0 or at a level from 9 up fails with `TileUnavailableError`,
whatever the network would answer, both before and after the tiling scheme is adopted. -/
theorem fetchTile_level_out_of_range {α : Type} [Mul α] [Neg α] [One α]
    (luminance : Option Nat → Option Nat → Option Nat → α)
    (network : Nat → Nat → Nat → Option ImageElement)
    (self : EarthAtNight3DLayerClass α) (advertised : TileInfo) (n : Nat)
    (level row col : Nat)
    (hlevels : advertised.lods.map LOD.level = List.range n)
    (hout : level = 0 ∨ 9 ≤ level) :
    (self.load advertised).fetchTile luminance (WebTileLayer.fetchTile network) level row col =
        .error .tileUnavailable ∧
      (self.load advertised).loadResolved.fetchTile luminance (WebTileLayer.fetchTile network)
        level row col = .error .tileUnavailable := by
  have hnone : (createEarthAtNightWebTileLayer advertised).tileInfo.lods.any
      (fun lod => lod.level == level) = false := by
    rw [List.any_eq_false]
    intro lod hmem
    have := truncateLods_levels advertised.lods n hlevels lod
      (by simpa [createEarthAtNightWebTileLayer] using hmem)
    simp only [beq_iff_eq]
    omega
  have hfetch : WebTileLayer.fetchTile network (createEarthAtNightWebTileLayer advertised)
      level row col = .error .tileUnavailable := by
    simp [WebTileLayer.fetchTile, hnone]
  constructor
  · simp [EarthAtNight3DLayerClass.fetchTile, EarthAtNight3DLayerClass.load, hfetch]
  · simp [EarthAtNight3DLayerClass.fetchTile, EarthAtNight3DLayerClass.load,
      EarthAtNight3DLayerClass.loadResolved, hfetch]

/-- C9: when the tile fetch of the internal layer fails with `e`, `fetchTile` fails with the
same `e`; and `fetchTile` yields a grid only if the internal layer exists and its tile fetch
succeeded. -/
theorem fetchTile_propagates_failure {α : Type} [Mul α] [Neg α] [One α]
    (luminance : Option Nat → Option Nat → Option Nat → α)
    (fetch : WebTileLayer → Nat → Nat → Nat → Except TileError ImageElement)
    (self : EarthAtNight3DLayerClass α) (level row col : Nat) :
    (∀ layer e, self._earthAtNightLayer = some layer → fetch layer level row col = .error e →
      self.fetchTile luminance fetch level row col = .error e) ∧
    (∀ grid, self.fetchTile luminance fetch level row col = .ok grid →
      ∃ layer imageElement, self._earthAtNightLayer = some layer ∧
        fetch layer level row col = .ok imageElement) := by
  constructor
  · intro layer e hlayer hfetch
    simp [EarthAtNight3DLayerClass.fetchTile, hlayer, hfetch]
  · intro grid hgrid
    unfold EarthAtNight3DLayerClass.fetchTile at hgrid
    cases hlayer : self._earthAtNightLayer with
    | none => simp [hlayer] at hgrid
    | some layer =>
      cases hfetch : fetch layer level row col with
      | error e => simp [hlayer, hfetch] at hgrid
      | ok imageElement => exact ⟨layer, imageElement, rfl, hfetch⟩

/-! ## The relative luminance -/

theorem luminance_x_zero : luminance_x 0 = 0 := by
  norm_num [luminance_x]

theorem luminance_x_full : luminance_x 255 = 1 := by
  have h : ¬ ((255 : ℝ) / 255 ≤ 0.03928) := by norm_num
  have hb : ((255 : ℝ) / 255 + 0.055) / 1.055 = 1 := by norm_num
  rw [luminance_x, if_neg h, hb, Real.one_rpow]

theorem luminance_x_range (x : ℝ) (h0 : 0 ≤ x) (h1 : x ≤ 255) :
    0 ≤ luminance_x x ∧ luminance_x x ≤ 1 := by
  unfold luminance_x
  split
  · next h =>
    constructor
    · positivity
    · have : x / 255 / 12.92 ≤ 0.03928 / 12.92 := by
        apply div_le_div_of_nonneg_right h (by norm_num)
      have h2 : (0.03928 : ℝ) / 12.92 ≤ 1 := by norm_num
      linarith
  · have hb0 : 0 ≤ (x / 255 + 0.055) / 1.055 := by positivity
    have hb1 : (x / 255 + 0.055) / 1.055 ≤ 1 := by
      rw [div_le_one (by norm_num)]
      have : x / 255 ≤ 1 := by
        rw [div_le_one (by norm_num)]
        exact h1
      linarith
    exact ⟨Real.rpow_nonneg hb0 _, Real.rpow_le_one hb0 hb1 (by norm_num)⟩

theorem rgb2luminance_range (r g b : ℝ) (hr : 0 ≤ r ∧ r ≤ 255) (hg : 0 ≤ g ∧ g ≤ 255)
    (hb : 0 ≤ b ∧ b ≤ 255) : 0 ≤ rgb2luminance r g b ∧ rgb2luminance r g b ≤ 1 := by
  have h1 := luminance_x_range r hr.1 hr.2
  have h2 := luminance_x_range g hg.1 hg.2
  have h3 := luminance_x_range b hb.1 hb.2
  unfold rgb2luminance
  constructor
  · have := h1.1
    have := h2.1
    have := h3.1
    positivity
  · have e : (0.2126 : ℝ) * 1 + 0.7152 * 1 + 0.0722 * 1 = 1 := by norm_num
    have a1 : (0.2126 : ℝ) * luminance_x r ≤ 0.2126 * 1 :=
      mul_le_mul_of_nonneg_left h1.2 (by norm_num)
    have a2 : (0.7152 : ℝ) * luminance_x g ≤ 0.7152 * 1 :=
      mul_le_mul_of_nonneg_left h2.2 (by norm_num)
    have a3 : (0.0722 : ℝ) * luminance_x b ≤ 0.0722 * 1 :=
      mul_le_mul_of_nonneg_left h3.2 (by norm_num)
    linarith

theorem rgb2luminance_white : rgb2luminance 255 255 255 = 1 := by
  rw [rgb2luminance, luminance_x_full]
  norm_num

theorem rgb2luminance_black : rgb2luminance 0 0 0 = 0 := by
  rw [rgb2luminance, luminance_x_zero]
  norm_num

theorem rgb2luminance_grey (c : ℝ) : rgb2luminance c c c = luminance_x c := by
  rw [rgb2luminance]
  ring

/-- A real power with exponent 2.4 lies strictly between two bounds as soon as the 12th power
of the base lies strictly between the 5th powers of the bounds. -/
theorem rpow_bounds (q lo hi : ℝ) (hq : 0 ≤ q) (hhi : 0 ≤ hi)
    (h1 : lo ^ 5 < q ^ 12) (h2 : q ^ 12 < hi ^ 5) :
    lo < q ^ (2.4 : ℝ) ∧ q ^ (2.4 : ℝ) < hi := by
  have hy : 0 ≤ q ^ (2.4 : ℝ) := Real.rpow_nonneg hq _
  have h5 : (q ^ (2.4 : ℝ)) ^ 5 = q ^ 12 := by
    rw [← Real.rpow_natCast, ← Real.rpow_mul hq]
    have : (2.4 : ℝ) * ((5 : ℕ) : ℝ) = ((12 : ℕ) : ℝ) := by norm_num
    rw [this, Real.rpow_natCast]
  constructor
  · apply lt_of_pow_lt_pow_left₀ 5 hy
    rw [h5]
    exact h1
  · apply lt_of_pow_lt_pow_left₀ 5 hhi
    rw [h5]
    exact h2

theorem luminance_x_128 : 0.2158 < luminance_x 128 ∧ luminance_x 128 < 0.2159 := by
  have h : ¬ ((128 : ℝ) / 255 ≤ 0.03928) := by norm_num
  rw [luminance_x, if_neg h]
  apply rpow_bounds <;> norm_num

theorem luminance_x_64 : 0.0512 < luminance_x 64 ∧ luminance_x 64 < 0.0513 := by
  have h : ¬ ((64 : ℝ) / 255 ≤ 0.03928) := by norm_num
  rw [luminance_x, if_neg h]
  apply rpow_bounds <;> norm_num

/-! ## The elevation values -/

/-- C3: for every exaggeration factor, white has luminance 1 and black luminance 0, and on a
successfully fetched tile every pixel (255,255,255) gets an elevation equal to the
exaggeration factor and every pixel (0,0,0) the elevation 0. -/
theorem fetchTile_white_black
    (fetch : WebTileLayer → Nat → Nat → Nat → Except TileError ImageElement)
    (self : EarthAtNight3DLayerClass ℝ) (layer : WebTileLayer) (level row col : Nat)
    (imageElement : ImageElement)
    (hlayer : self._earthAtNightLayer = some layer)
    (hfetch : fetch layer level row col = .ok imageElement)
    (hsize : imageElement.data.length = 4 * (imageElement.width * imageElement.height)) :
    chromaLuminance (some 255) (some 255) (some 255) = 1 ∧
    chromaLuminance (some 0) (some 0) (some 0) = 0 ∧
    ∃ grid, self.fetchTile chromaLuminance fetch level row col = .ok grid ∧
      ∀ i, i < imageElement.width * imageElement.height →
        (imageElement.data[4 * i]? = some 255 → imageElement.data[4 * i + 1]? = some 255 →
          imageElement.data[4 * i + 2]? = some 255 →
          grid.values[i]? = some self.exaggerationFactor) ∧
        (imageElement.data[4 * i]? = some 0 → imageElement.data[4 * i + 1]? = some 0 →
          imageElement.data[4 * i + 2]? = some 0 →
          grid.values[i]? = some 0) := by
  have hwhite : chromaLuminance (some 255) (some 255) (some 255) = 1 := by
    simp only [chromaLuminance]
    exact_mod_cast rgb2luminance_white
  have hblack : chromaLuminance (some 0) (some 0) (some 0) = 0 := by
    simp only [chromaLuminance]
    exact_mod_cast rgb2luminance_black
  refine ⟨hwhite, hblack, _,
    fetchTile_ok chromaLuminance fetch self layer level row col imageElement hlayer hfetch, ?_⟩
  intro i hi
  simp only [pixelLoop_whole chromaLuminance _ _ _ hsize]
  rw [List.getElem?_map, List.getElem?_range hi]
  constructor
  · intro h0 h1 h2
    simp [sampleAt, h0, h1, h2, hwhite]
  · intro h0 h1 h2
    simp [sampleAt, h0, h1, h2, hblack]

/-- C5: with a non-negative exaggeration factor, on a successfully fetched tile whose decoded
buffer holds 4 components (each at most 255) per pixel, `noDataValue` is -1 and every value
lies between 0 and the exaggeration factor, so none equals `noDataValue`. -/
theorem fetchTile_values_range
    (fetch : WebTileLayer → Nat → Nat → Nat → Except TileError ImageElement)
    (self : EarthAtNight3DLayerClass ℝ) (layer : WebTileLayer) (level row col : Nat)
    (imageElement : ImageElement)
    (hlayer : self._earthAtNightLayer = some layer)
    (hfetch : fetch layer level row col = .ok imageElement)
    (hsize : imageElement.data.length = 4 * (imageElement.width * imageElement.height))
    (hbytes : ∀ x ∈ imageElement.data, x ≤ 255)
    (hfactor : 0 ≤ self.exaggerationFactor) :
    ∃ grid, self.fetchTile chromaLuminance fetch level row col = .ok grid ∧
      grid.noDataValue = -1 ∧
      ∀ v ∈ grid.values, 0 ≤ v ∧ v ≤ self.exaggerationFactor ∧ v ≠ grid.noDataValue := by
  refine ⟨_, fetchTile_ok chromaLuminance fetch self layer level row col imageElement hlayer
    hfetch, rfl, ?_⟩
  intro v hv
  simp only [pixelLoop_whole chromaLuminance _ _ _ hsize, List.mem_map, List.mem_range] at hv
  obtain ⟨i, hi, rfl⟩ := hv
  have h0 : 4 * i < imageElement.data.length := by omega
  have h1 : 4 * i + 1 < imageElement.data.length := by omega
  have h2 : 4 * i + 2 < imageElement.data.length := by omega
  have hbyte : ∀ k (hk : k < imageElement.data.length),
      (0 : ℝ) ≤ (imageElement.data[k] : ℝ) ∧ (imageElement.data[k] : ℝ) ≤ 255 := by
    intro k hk
    refine ⟨Nat.cast_nonneg _, ?_⟩
    exact_mod_cast hbytes _ (List.getElem_mem hk)
  have hl := rgb2luminance_range _ _ _ (hbyte _ h0) (hbyte _ h1) (hbyte _ h2)
  simp only [sampleAt, List.getElem?_eq_getElem h0, List.getElem?_eq_getElem h1,
    List.getElem?_eq_getElem h2, chromaLuminance]
  have hlo : 0 ≤ rgb2luminance ↑imageElement.data[4 * i] ↑imageElement.data[4 * i + 1]
      ↑imageElement.data[4 * i + 2] * self.exaggerationFactor :=
    mul_nonneg hl.1 hfactor
  have hhi : rgb2luminance ↑imageElement.data[4 * i] ↑imageElement.data[4 * i + 1]
      ↑imageElement.data[4 * i + 2] * self.exaggerationFactor ≤ self.exaggerationFactor :=
    mul_le_of_le_one_left hfactor hl.2
  refine ⟨hlo, hhi, ?_⟩
  intro h
  rw [h] at hlo
  norm_num at hlo

theorem tile2x2Network_fetch :
    WebTileLayer.fetchTile tile2x2Network
      (createEarthAtNightWebTileLayer { lods := pyramid10 }) 1 0 0 = .ok tile2x2 := by
  simp [WebTileLayer.fetchTile, tile2x2Network, createEarthAtNightWebTileLayer,
    truncateLods_eq, pyramid10, List.range_succ]

theorem fetchTile_loadedLayer_tile2x2 :
    loadedLayer.fetchTile chromaLuminance (WebTileLayer.fetchTile tile2x2Network) 1 0 0 =
      .ok { values := [0, 1000, luminance_x 128 * 1000, luminance_x 64 * 1000],
            width := 2, height := 2, noDataValue := -1 } := by
  have hfetch := tile2x2Network_fetch
  have hlayer : loadedLayer._earthAtNightLayer =
      some (createEarthAtNightWebTileLayer { lods := pyramid10 }) := rfl
  rw [fetchTile_ok chromaLuminance _ loadedLayer _ 1 0 0 tile2x2 hlayer hfetch]
  have hsize : tile2x2.data.length = 4 * 4 := rfl
  rw [pixelLoop_whole chromaLuminance _ _ 4 hsize]
  have hfactor : loadedLayer.exaggerationFactor = 1000 := rfl
  have hwhite : rgb2luminance 255 255 255 = 1 := rgb2luminance_white
  have hblack : rgb2luminance 0 0 0 = 0 := rgb2luminance_black
  simp [List.range_succ, sampleAt, tile2x2, chromaLuminance, hfactor, hwhite, hblack,
    rgb2luminance_grey]

/-- C4 (as amended): on the 2×2 tile (0,0,0), (255,255,255), (128,128,128), (64,64,64) with
exaggeration factor 1000 the values are [0, 1000, v3, v4], in that order, with v3 within 1
of 216 and v4 within 1 of 51. -/
theorem fetchTile_tile2x2_values :
    ∃ v3 v4 : ℝ,
      loadedLayer.fetchTile chromaLuminance (WebTileLayer.fetchTile tile2x2Network) 1 0 0 =
        .ok { values := [0, 1000, v3, v4], width := 2, height := 2, noDataValue := -1 } ∧
      |v3 - 216| ≤ 1 ∧ |v4 - 51| ≤ 1 := by
  refine ⟨luminance_x 128 * 1000, luminance_x 64 * 1000, fetchTile_loadedLayer_tile2x2, ?_, ?_⟩
  · have h := luminance_x_128
    rw [abs_le]
    constructor <;> linarith [h.1, h.2]
  · have h := luminance_x_64
    rw [abs_le]
    constructor <;> linarith [h.1, h.2]

/-- C4, the claim as stated fails: on that tile the third value is not within 1 of 502 (and
the fourth is not within 1 of 230). -/
theorem fetchTile_tile2x2_not_502 :
    ¬ ∃ (grid : ElevationTileData ℝ) (v3 v4 : ℝ),
      loadedLayer.fetchTile chromaLuminance (WebTileLayer.fetchTile tile2x2Network) 1 0 0 =
        .ok grid ∧
      grid.values = [0, 1000, v3, v4] ∧ |v3 - 502| ≤ 1 ∧ |v4 - 230| ≤ 1 := by
  rintro ⟨grid, v3, v4, hgrid, hvalues, h3, -⟩
  rw [fetchTile_loadedLayer_tile2x2] at hgrid
  injection hgrid with hgrid
  subst hgrid
  simp only [List.cons.injEq, true_and, and_true] at hvalues
  have h := luminance_x_128
  rw [abs_le] at h3
  linarith [h.2, h3.1, hvalues.1]

/-! ## The life cycle and `fetchTile` -/

theorem phase_lifecycle {α : Type} (factor : α) (advertised : TileInfo) :
    (EarthAtNight3DLayerClass.createWith factor).phase = .unloaded ∧
      ((EarthAtNight3DLayerClass.createWith factor).load advertised).phase = .loading ∧
      ((EarthAtNight3DLayerClass.createWith factor).load advertised).loadResolved.phase =
        .loaded := by
  refine ⟨rfl, rfl, rfl⟩

/-- C8 (as amended): before `load` has run, `fetchTile` fails with a `TypeError` and returns no
grid; between `load` and the adoption of the tiling scheme nothing guards `fetchTile`, which
gives exactly what it gives once the layer is loaded. -/
theorem fetchTile_before_loaded {α : Type} [Mul α] [Neg α] [One α]
    (luminance : Option Nat → Option Nat → Option Nat → α)
    (fetch : WebTileLayer → Nat → Nat → Nat → Except TileError ImageElement)
    (self : EarthAtNight3DLayerClass α) (level row col : Nat) :
    (self.phase = .unloaded →
      self.fetchTile luminance fetch level row col = .error .typeError) ∧
    (self.phase = .loading →
      self.loadResolved.phase = .loaded ∧
      self.fetchTile luminance fetch level row col =
        self.loadResolved.fetchTile luminance fetch level row col) := by
  obtain ⟨factor, layer, info⟩ := self
  cases layer with
  | none =>
    constructor
    · intro _
      rfl
    · intro h
      simp [EarthAtNight3DLayerClass.phase] at h
  | some layer =>
    cases info with
    | none =>
      constructor
      · intro h
        simp [EarthAtNight3DLayerClass.phase] at h
      · intro _
        exact ⟨rfl, rfl⟩
    | some info =>
      constructor
      · intro h
        simp [EarthAtNight3DLayerClass.phase] at h
      · intro h
        simp [EarthAtNight3DLayerClass.phase] at h

/-- C8, the claim as stated fails: a layer on which `load` has run but whose tiling scheme is
not adopted yet answers a fetch at level 1 with a grid. -/
theorem fetchTile_while_loading_returns_grid :
    loadingLayer.phase = LoadPhase.loading ∧
      ∃ grid : ElevationTileData ℝ,
        loadingLayer.fetchTile chromaLuminance (WebTileLayer.fetchTile tile2x2Network) 1 0 0 =
          .ok grid := by
  refine ⟨rfl, _, fetchTile_ok chromaLuminance _ loadingLayer _ 1 0 0 tile2x2 rfl
    tile2x2Network_fetch⟩

/-! ## Instances on the test data -/

theorem pyramid10_levels : pyramid10.map LOD.level = List.range 10 := by
  simp [pyramid10, Function.comp_def]

/-- C1 on the 2×2 tile: the hypotheses hold there and the values are the pixelwise
luminances times 1000, whatever the opacity components. -/
theorem fetchTile_values_pixelwise_witness :
    (loadedLayer._earthAtNightLayer =
        some (createEarthAtNightWebTileLayer { lods := pyramid10 }) ∧
      WebTileLayer.fetchTile tile2x2Network
        (createEarthAtNightWebTileLayer { lods := pyramid10 }) 1 0 0 = .ok tile2x2 ∧
      tile2x2.data.length = 4 * (tile2x2.width * tile2x2.height)) ∧
    ∃ grid, loadedLayer.fetchTile chromaLuminance (WebTileLayer.fetchTile tile2x2Network)
        1 0 0 = .ok grid ∧
      grid.values.length = tile2x2.width * tile2x2.height ∧
      (∀ i, i < tile2x2.width * tile2x2.height →
        ∃ r g b, tile2x2.data[4 * i]? = some r ∧ tile2x2.data[4 * i + 1]? = some g ∧
          tile2x2.data[4 * i + 2]? = some b ∧
          grid.values[i]? =
            some (chromaLuminance (some r) (some g) (some b) * loadedLayer.exaggerationFactor)) ∧
      (∀ (fetch2 : WebTileLayer → Nat → Nat → Nat → Except TileError ImageElement)
          (imageElement2 : ImageElement),
        fetch2 (createEarthAtNightWebTileLayer { lods := pyramid10 }) 1 0 0 =
          .ok imageElement2 →
        imageElement2.data.length = tile2x2.data.length →
        (∀ k, k % 4 ≠ 3 → imageElement2.data[k]? = tile2x2.data[k]?) →
        ∃ grid2, loadedLayer.fetchTile chromaLuminance fetch2 1 0 0 = .ok grid2 ∧
          grid2.values = grid.values) :=
  ⟨⟨rfl, tile2x2Network_fetch, rfl⟩,
    fetchTile_values_pixelwise chromaLuminance (WebTileLayer.fetchTile tile2x2Network)
      loadedLayer (createEarthAtNightWebTileLayer { lods := pyramid10 }) 1 0 0 tile2x2 rfl
      tile2x2Network_fetch rfl⟩

/-- C2 on a 256×256 tile: the grid is 256 wide, 256 high and has 65536 values. -/
theorem fetchTile_dimensions_witness :
    tile256.data.length = 4 * 256 * 256 ∧
    ∃ grid, loadedLayer.fetchTile chromaLuminance (fun _ _ _ _ => .ok tile256) 3 2 1 =
        .ok grid ∧
      grid.width = 256 ∧ grid.height = 256 ∧ grid.values.length = 65536 := by
  have hsize : tile256.data.length = 4 * 256 * 256 := List.length_replicate _ _
  obtain ⟨grid, hgrid, hw, hh, hlen⟩ :=
    fetchTile_dimensions chromaLuminance (fun _ _ _ _ => .ok tile256) loadedLayer
      (createEarthAtNightWebTileLayer { lods := pyramid10 }) 3 2 1 tile256 256 256 rfl rfl
      rfl rfl hsize
  refine ⟨hsize, grid, hgrid, hw, hh, ?_⟩
  rw [hlen, hw, hh]

/-- C3 on the 2×2 tile, whose first pixel is black and second pixel white. -/
theorem fetchTile_white_black_witness :
    (loadedLayer._earthAtNightLayer =
        some (createEarthAtNightWebTileLayer { lods := pyramid10 }) ∧
      WebTileLayer.fetchTile tile2x2Network
        (createEarthAtNightWebTileLayer { lods := pyramid10 }) 1 0 0 = .ok tile2x2 ∧
      tile2x2.data.length = 4 * (tile2x2.width * tile2x2.height)) ∧
    ∃ grid, loadedLayer.fetchTile chromaLuminance (WebTileLayer.fetchTile tile2x2Network)
        1 0 0 = .ok grid ∧
      grid.values[0]? = some 0 ∧ grid.values[1]? = some loadedLayer.exaggerationFactor := by
  obtain ⟨-, -, grid, hgrid, hpix⟩ :=
    fetchTile_white_black (WebTileLayer.fetchTile tile2x2Network) loadedLayer
      (createEarthAtNightWebTileLayer { lods := pyramid10 }) 1 0 0 tile2x2 rfl
      tile2x2Network_fetch rfl
  exact ⟨⟨rfl, tile2x2Network_fetch, rfl⟩, grid, hgrid,
    (hpix 0 (by decide)).2 rfl rfl rfl, (hpix 1 (by decide)).1 rfl rfl rfl⟩

/-- C5 on the 2×2 tile with exaggeration factor 1000. -/
theorem fetchTile_values_range_witness :
    (loadedLayer._earthAtNightLayer =
        some (createEarthAtNightWebTileLayer { lods := pyramid10 }) ∧
      WebTileLayer.fetchTile tile2x2Network
        (createEarthAtNightWebTileLayer { lods := pyramid10 }) 1 0 0 = .ok tile2x2 ∧
      tile2x2.data.length = 4 * (tile2x2.width * tile2x2.height) ∧
      (∀ x ∈ tile2x2.data, x ≤ 255) ∧
      0 ≤ loadedLayer.exaggerationFactor) ∧
    ∃ grid, loadedLayer.fetchTile chromaLuminance (WebTileLayer.fetchTile tile2x2Network)
        1 0 0 = .ok grid ∧
      grid.noDataValue = -1 ∧
      ∀ v ∈ grid.values,
        0 ≤ v ∧ v ≤ loadedLayer.exaggerationFactor ∧ v ≠ grid.noDataValue := by
  have hbytes : ∀ x ∈ tile2x2.data, x ≤ 255 := by decide
  have hfactor : (0 : ℝ) ≤ loadedLayer.exaggerationFactor := by
    show (0 : ℝ) ≤ 1000
    norm_num
  exact ⟨⟨rfl, tile2x2Network_fetch, rfl, hbytes, hfactor⟩,
    fetchTile_values_range (WebTileLayer.fetchTile tile2x2Network) loadedLayer
      (createEarthAtNightWebTileLayer { lods := pyramid10 }) 1 0 0 tile2x2 rfl
      tile2x2Network_fetch rfl hbytes hfactor⟩

/-- C6 on the ten-level test pyramid. -/
theorem truncation_ten_levels_witness :
    pyramid10.map LOD.level = List.range 10 ∧
    (createEarthAtNightWebTileLayer { lods := pyramid10 }).tileInfo.lods =
      (pyramid10.drop 1).take 8 ∧
    (createEarthAtNightWebTileLayer { lods := pyramid10 }).tileInfo.lods.map LOD.level =
      [1, 2, 3, 4, 5, 6, 7, 8] ∧
    (createEarthAtNightWebTileLayer { lods := pyramid10 }).tileInfo.lods.length =
      pyramid10.length - 2 :=
  ⟨pyramid10_levels, (truncation_ten_levels pyramid10 pyramid10_levels).1,
    (truncation_ten_levels pyramid10 pyramid10_levels).2.2.1,
    (truncation_ten_levels pyramid10 pyramid10_levels).2.2.2⟩

/-- C7 on the ten-level test pyramid: levels 0 and 9 are refused although the network would
answer. -/
theorem fetchTile_level_out_of_range_witness :
    pyramid10.map LOD.level = List.range 10 ∧
    loadedLayer.fetchTile chromaLuminance (WebTileLayer.fetchTile tile2x2Network) 0 0 0 =
      .error .tileUnavailable ∧
    loadedLayer.fetchTile chromaLuminance (WebTileLayer.fetchTile tile2x2Network) 9 0 0 =
      .error .tileUnavailable :=
  ⟨pyramid10_levels,
    (fetchTile_level_out_of_range chromaLuminance tile2x2Network
      (EarthAtNight3DLayerClass.createWith (1000 : ℝ)) { lods := pyramid10 } 10 0 0 0
      pyramid10_levels (Or.inl rfl)).2,
    (fetchTile_level_out_of_range chromaLuminance tile2x2Network
      (EarthAtNight3DLayerClass.createWith (1000 : ℝ)) { lods := pyramid10 } 10 9 0 0
      pyramid10_levels (Or.inr (Nat.le_refl 9))).2⟩

/-- C8 (as amended) on the test layers: the fresh layer is unloaded and its fetch raises the
`TypeError`; the layer on which `load` has run is loading and fetches as the loaded one. -/
theorem fetchTile_before_loaded_witness :
    ((EarthAtNight3DLayerClass.createWith (1000 : ℝ)).phase = .unloaded ∧
      (EarthAtNight3DLayerClass.createWith (1000 : ℝ)).fetchTile chromaLuminance
        (WebTileLayer.fetchTile tile2x2Network) 1 0 0 = .error .typeError) ∧
    (loadingLayer.phase = .loading ∧
      loadingLayer.fetchTile chromaLuminance (WebTileLayer.fetchTile tile2x2Network) 1 0 0 =
        loadedLayer.fetchTile chromaLuminance (WebTileLayer.fetchTile tile2x2Network) 1 0 0) :=
  ⟨⟨rfl, (fetchTile_before_loaded chromaLuminance (WebTileLayer.fetchTile tile2x2Network)
      (EarthAtNight3DLayerClass.createWith (1000 : ℝ)) 1 0 0).1 rfl⟩,
    ⟨rfl, ((fetchTile_before_loaded chromaLuminance (WebTileLayer.fetchTile tile2x2Network)
      loadingLayer 1 0 0).2 rfl).2⟩⟩

/-- C9 on the test layer: a network that errors makes the tile source fail with
`TileUnavailableError`, and `fetchTile` fails with that same error. -/
theorem fetchTile_propagates_failure_witness :
    WebTileLayer.fetchTile (fun _ _ _ => none)
      (createEarthAtNightWebTileLayer { lods := pyramid10 }) 1 0 0 = .error .tileUnavailable ∧
    loadedLayer.fetchTile chromaLuminance (WebTileLayer.fetchTile (fun _ _ _ => none)) 1 0 0 =
      .error .tileUnavailable := by
  have hfetch : WebTileLayer.fetchTile (fun _ _ _ => none)
      (createEarthAtNightWebTileLayer { lods := pyramid10 }) 1 0 0 = .error .tileUnavailable := by
    simp [WebTileLayer.fetchTile]
  exact ⟨hfetch,
    (fetchTile_propagates_failure chromaLuminance (WebTileLayer.fetchTile (fun _ _ _ => none))
      loadedLayer 1 0 0).1 _ _ rfl hfetch⟩

/-- C10 on the ten-level test pyramid. -/
theorem truncation_contiguous_nonempty_witness :
    2 ≤ pyramid10.length ∧
    (∃ pre post,
      pyramid10 =
        pre ++ (createEarthAtNightWebTileLayer { lods := pyramid10 }).tileInfo.lods ++ post) ∧
    (∀ i, i < (createEarthAtNightWebTileLayer { lods := pyramid10 }).tileInfo.lods.length →
      (createEarthAtNightWebTileLayer { lods := pyramid10 }).tileInfo.lods[i]? =
        pyramid10[i + 1]?) ∧
    (createEarthAtNightWebTileLayer { lods := pyramid10 }).tileInfo.lods ≠ [] :=
  ⟨by simp [pyramid10], truncation_contiguous_nonempty pyramid10 (by simp [pyramid10])⟩

end EarthAtNight
